import Mathlib

/-!
Verification of the routing / response-contract logic of the multi-database
chatbot service (`main.py`).

The interesting code of the repository is pure string manipulation around a
set of external calls (SQLite execution, a natural-language-to-SQL sub-agent,
a retrieval-QA chain, a routing agent).  We embed that string logic faithfully
over `List Char`, re-implementing the Python `str` primitives the code uses
(`strip`, `lower`, `startswith`, `find`, `in`, slicing, `split`), and model
every external call as a component of an explicit environment record that
returns `Except String _` (an exception or a normal value).  The
process-wide mutable capture list `sql_queries` is modelled by explicit state
passing: `run_sql_tool` receives the list's prior contents and returns its
final contents.
-/

set_option maxRecDepth 10000

/-! ## Python string primitives, re-implemented over `List Char` -/

/-- Python `str.strip()` (no arguments): remove leading and trailing
whitespace. -/
def pyStrip (s : String) : String :=
  String.mk (((s.data.dropWhile Char.isWhitespace).reverse.dropWhile
      Char.isWhitespace).reverse)

/-- Python `str.lower()` (the source only lowercases ASCII SQL keywords). -/
def pyLower (s : String) : String :=
  String.mk (s.data.map Char.toLower)

/-- Index of the first occurrence of `sep` in a character list
(Python `str.find`, with `none` for Python's `-1`). -/
def findSub (sep : List Char) : List Char → Option Nat
  | [] => if ([] : List Char).take sep.length = sep then some 0 else none
  | c :: rest =>
      if (c :: rest).take sep.length = sep then some 0
      else Option.map (fun x => x + 1) (findSub sep rest)

/-- Python `sub in s` (substring containment). -/
def containsSub (s sub : String) : Bool :=
  (findSub sub.data s.data).isSome

/-- Python `s.find(sub)`; the source only calls `find` under an `in` guard,
so the `none` case (Python `-1`) is unreachable and defaulted to `0`. -/
def pyFindD (s sub : String) : Nat :=
  (findSub sub.data s.data).getD 0

/-- Python slice `s[a:b]` for nonnegative indices (`b ≤ a` yields `""`,
exactly as the `Nat` truncated subtraction does). -/
def pySlice (s : String) (a b : Nat) : String :=
  String.mk ((s.data.drop a).take (b - a))

/-- Python slice `s[a:]` for a nonnegative index. -/
def pySliceFrom (s : String) (a : Nat) : String :=
  String.mk (s.data.drop a)

/-- Worker for Python `str.split(sep)` with a non-empty separator:
leftmost non-overlapping matches, `acc` holds the reversed current piece. -/
def splitOnAux (sep : List Char) (hsep : sep ≠ []) :
    List Char → List Char → List (List Char)
  | [], acc => [acc.reverse]
  | c :: rest, acc =>
      if (c :: rest).take sep.length = sep then
        acc.reverse :: splitOnAux sep hsep ((c :: rest).drop sep.length) []
      else
        splitOnAux sep hsep rest (c :: acc)
termination_by l _ => l.length
decreasing_by
  · simp only [List.length_drop, List.length_cons]
    have hk : 0 < sep.length := List.length_pos.mpr hsep
    omega
  · simp [List.length_cons]

/-- Python `s.split(sep)[-1]` for a non-empty separator: the final piece of
the split (the whole string when the separator does not occur). -/
def pySplitLastPiece (s sep : String) (hsep : sep.data ≠ []) : String :=
  String.mk ((splitOnAux sep.data hsep s.data []).getLastD [])

/-! ## Database QA tool (`run_sql_tool`, main.py lines 240-318)

External behaviour is abstracted into `SqlEnv`:
* `dbRunResult q` is what the (un-patched) `db.run(q)` returns, or the
  exception it raises;
* `agentQueries input` is the list of SQL statements the natural-language-
  to-SQL sub-agent executes through the patched `db.run` during
  `sql_agent.run(input)` (each such call appends its query to the shared
  capture list `sql_queries`, even when the run later fails);
* `agentResult input` is the sub-agent's final answer, or the exception its
  run raises.

The shared mutable list `sql_queries` is explicit state: `run_sql_tool`
takes its prior contents and reports its final contents.  The `events`
trace records which external entry points the tool invoked. -/

structure SqlEnv where
  dbRunResult : String → Except String String
  agentQueries : String → List String
  agentResult : String → Except String String

/-- External invocations performed by one `run_sql_tool` call. -/
inductive SqlEvent where
  | dbRunDirect : String → SqlEvent
  | subAgentRun : String → SqlEvent
deriving DecidableEq

/-- Result of one `run_sql_tool` call: the returned string, the final
contents of the shared capture list `sql_queries`, and the trace of
external invocations. -/
structure SqlToolRun where
  output : String
  queries : List String
  events : List SqlEvent
deriving DecidableEq

/-- The tuple of keywords in `q.lower().startswith((...))`
(main.py lines 282-284). -/
def SQL_KEYWORDS : List String :=
  ["select", "with", "pragma", "explain", "insert", "update", "delete"]

/-- `q.lower().startswith((...))` from main.py lines 282-284. -/
def looksLikeSql (q : String) : Bool :=
  SQL_KEYWORDS.any fun kw =>
    decide ((pyLower q).data.take kw.data.length = kw.data)

/-- The instruction block prepended to the sub-agent input
(main.py lines 277-278). -/
def SQL_PREFIX_FORCED : String :=
  "You MUST accept a NATURAL LANGUAGE question and generate SQL yourself.\nDo NOT expect the input to be SQL. If the input looks like SQL anyway, execute it directly and then summarize the results."

/-- The string passed to `sql_agent.run` (main.py line 296):
`SQL_PREFIX_FORCED + "\n\nUser question:\n" + q` with `q` the stripped
question. -/
def sqlAgentInput (question : String) : String :=
  SQL_PREFIX_FORCED ++ "\n\nUser question:\n" ++ pyStrip question

/-- `run_sql_tool` (main.py lines 280-309).  `sql_queries` is the prior
contents of the shared capture list.  The `try`/`except` block is modelled
by matching on the `Except` value of the one external call each path makes;
all other statements in the body are total.  In the direct-SQL path the
patched `db.run` appends `q` to the capture list before executing (so the
append survives an execution error); in the sub-agent path the list is
cleared first and then holds exactly the statements the sub-agent
executed. -/
def run_sql_tool (env : SqlEnv) (sql_queries : List String)
    (question : String) : SqlToolRun :=
  let q := pyStrip question
  if looksLikeSql q then
    match env.dbRunResult q with
    | Except.ok rows =>
        { output := "Source: Database (SQLite: healthcare.db)\nTool Used: SQL_Agent (direct SQL execution)\nSQL: " ++ q ++ "\nAnswer: " ++ rows
          queries := sql_queries ++ [q]
          events := [SqlEvent.dbRunDirect q] }
    | Except.error e =>
        { output := "Source: Database (SQLite: healthcare.db)\nTool Used: SQL_Agent\nAnswer: Error while querying database: " ++ e
          queries := sql_queries ++ [q]
          events := [SqlEvent.dbRunDirect q] }
  else
    let input := sqlAgentInput question
    let executed := env.agentQueries input
    match env.agentResult input with
    | Except.ok answer =>
        let generated_sql := executed.getLastD "N/A"
        { output := "Source: Database (SQLite: healthcare.db)\nTool Used: SQL_Agent\nSQL: " ++ generated_sql ++ "\nAnswer: " ++ answer
          queries := executed
          events := [SqlEvent.subAgentRun input] }
    | Except.error e =>
        { output := "Source: Database (SQLite: healthcare.db)\nTool Used: SQL_Agent\nAnswer: Error while querying database: " ++ e
          queries := executed
          events := [SqlEvent.subAgentRun input] }

/-! ## Document QA tool (`run_pdf_tool`, main.py lines 210-227)

The retrieval chain `pdf_qa.invoke` is external; `run_pdf_tool` formats its
result.  We embed the formatting logic with the retrieved source documents
and the answer text as inputs.  A document's `metadata.get('source','PDF')`
and `metadata.get('page','?')` are modelled as `Option String` fields (the
page value is rendered through an f-string, so we keep its rendered text). -/

structure DocMeta where
  source : Option String
  page : Option String
deriving DecidableEq

/-- The citation string `f"{doc.metadata.get('source','PDF')} (p.{doc.metadata.get('page','?')})"`
(main.py line 216). -/
def renderSrc (d : DocMeta) : String :=
  d.source.getD "PDF" ++ " (p." ++ d.page.getD "?" ++ ")"

/-- One iteration of the `unique_srcs` accumulation loop of main.py lines
215-218: append the rendered citation unless it is already present. -/
def dedupStep (unique_srcs : List String) (doc : DocMeta) : List String :=
  let src := renderSrc doc
  if src ∈ unique_srcs then unique_srcs else unique_srcs ++ [src]

/-- The `unique_srcs` accumulation loop of main.py lines 214-218: keep the
first occurrence of each rendered citation, in order. -/
def dedupSrcs (docs : List DocMeta) : List String :=
  docs.foldl dedupStep []

/-- The citation list that is joined into the `Files:` line:
`unique_srcs[:5]` (main.py line 219). -/
def citationList (docs : List DocMeta) : List String :=
  (dedupSrcs docs).take 5

/-- `run_pdf_tool` (main.py lines 210-227), with the retrieval result
already split into its `source_documents` and `result` components. -/
def run_pdf_tool (sources : List DocMeta) (result : String) : String :=
  let src_line :=
    if sources = [] then "PDF index (no page metadata)"
    else String.intercalate ", " (citationList sources)
  "Source: PDF • Files: " ++ src_line ++ "\nTool Used: PDF_RetrievalQA\nAnswer: " ++ result

/-! ## The `/chat` and `/health` endpoints (main.py lines 386-512)

The router agent's `invoke` is external: it is a function from the query to
either an exception or an `AgentOutput` (the dict holding
`intermediate_steps` and `output`).  The global `agent` is an
`Option AgentFn` (Python `None` versus a ready agent). -/

structure AgentAction where
  tool : String
deriving DecidableEq

/-- The dict returned by `agent.invoke`: the `intermediate_steps` list of
`(AgentAction, observation)` pairs and the `output` entry (`Option` because
the endpoint reads it with `res.get("output", ...)`). -/
structure AgentOutput where
  intermediate_steps : List (AgentAction × String)
  output : Option String
deriving DecidableEq

/-- A ready router agent: maps the query to the invocation's outcome. -/
def AgentFn : Type := String → Except String AgentOutput

/-- The JSON body built by the `/chat` endpoint. -/
structure ChatResponse where
  clean_answer : String
  tool : String
  tool_details : String
  raw_output : String
deriving DecidableEq

/-- Outcome of one `/chat` request: a JSON response or an HTTPException. -/
inductive ChatResult where
  | response : ChatResponse → ChatResult
  | httpError : Nat → String → ChatResult
deriving DecidableEq

/-- The observation-parsing block of `/chat` (main.py lines 401-440):
from the last action's tool name and observation text, produce
`(clean_answer, tool_details)`. -/
def parseObservation (tool obs : String) : String × String :=
  if tool = "SQL_Agent" then
    let clean_answer :=
      if containsSub obs "Answer:" then
        pyStrip (pySplitLastPiece obs "Answer:" (by decide))
      else obs
    let tool_details :=
      if containsSub obs "SQL:" && containsSub obs "Answer:" then
        pyStrip (pySlice obs (pyFindD obs "SQL:" + 4) (pyFindD obs "Answer:"))
      else if containsSub obs "SQL:" then
        pyStrip (pySliceFrom obs (pyFindD obs "SQL:" + 4))
      else ""
    (clean_answer, tool_details)
  else if tool = "PDF_RetrievalQA" then
    let clean_answer :=
      if containsSub obs "Answer:" then
        pyStrip (pySplitLastPiece obs "Answer:" (by decide))
      else obs
    let tool_details :=
      if containsSub obs "Files:" && containsSub obs "Tool Used:" then
        pyStrip (pySlice obs (pyFindD obs "Files:" + 6) (pyFindD obs "Tool Used:"))
      else if containsSub obs "Files:" then
        pyStrip (pySliceFrom obs (pyFindD obs "Files:" + 6))
      else ""
    (clean_answer, tool_details)
  else
    (obs, "No additional details available")

/-- The `/chat` endpoint (main.py lines 386-463).  The `try` block's only
fallible operation in the embedding is `invoke`; everything after it is
total string manipulation, and the `except` clause turns the exception text
into a 500 `HTTPException`. -/
def chat (agent : Option AgentFn) (query : String) : ChatResult :=
  match agent with
  | none => ChatResult.httpError 503 "Agent not ready yet."
  | some invoke =>
      match invoke query with
      | Except.error e => ChatResult.httpError 500 e
      | Except.ok res =>
          match res.intermediate_steps.getLast? with
          | some (last_action, last_observation) =>
              let parsed := parseObservation last_action.tool last_observation
              ChatResult.response
                { clean_answer := parsed.1
                  tool := last_action.tool
                  tool_details := parsed.2
                  raw_output := res.output.getD "" }
          | none =>
              ChatResult.response
                { clean_answer := res.output.getD "(no output)"
                  tool := "None"
                  tool_details := "No tool used"
                  raw_output := res.output.getD "" }

/-- The fields of the `/health` response body that the health claim is
about (main.py lines 465-512; the database-introspection fields are
filesystem I/O and do not influence these three fields). -/
structure HealthInfo where
  status : String
  message : String
  agent_ready : Bool
deriving DecidableEq

/-- The `/health` endpoint's computation of `status`, `message` and
`agent_ready` (main.py lines 468-480 and 508-511): the dict starts as
`healthy` with `agent_ready = agent is not None`, and is overwritten to
`degraded` exactly when `agent is None`. -/
def health (agent : Option AgentFn) : HealthInfo :=
  let health_info : HealthInfo :=
    { status := "healthy"
      message := "Application is running"
      agent_ready := agent.isSome }
  match agent with
  | none =>
      { health_info with
        status := "degraded"
        message := "Application is running but agent is not initialized" }
  | some _ => health_info

/-! ## Helper lemmas for the deduplicated citation list -/

theorem nodup_append_singleton {l : List String} {x : String}
    (h : l.Nodup) (hx : x ∉ l) : (l ++ [x]).Nodup := by
  simp [List.nodup_append, h, hx]

theorem dedupStep_nodup (acc : List String) (d : DocMeta) (h : acc.Nodup) :
    (dedupStep acc d).Nodup := by
  unfold dedupStep
  by_cases hm : renderSrc d ∈ acc
  · simpa [hm] using h
  · simpa [hm] using nodup_append_singleton h hm

theorem foldl_dedupStep_nodup :
    ∀ (docs : List DocMeta) (acc : List String), acc.Nodup →
      (List.foldl dedupStep acc docs).Nodup := by
  intro docs
  induction docs with
  | nil => intro acc h; simpa using h
  | cons d ds ih =>
      intro acc h
      simpa using ih (dedupStep acc d) (dedupStep_nodup acc d h)

theorem dedupSrcs_nodup (docs : List DocMeta) : (dedupSrcs docs).Nodup :=
  foldl_dedupStep_nodup docs [] List.nodup_nil

/-! ## Concrete environments used by the witnesses -/

/-- A store in which direct SQL execution succeeds with one rendered row. -/
def envDirect : SqlEnv :=
  { dbRunResult := fun _ => Except.ok "[(12,)]"
    agentQueries := fun _ => []
    agentResult := fun _ => Except.ok "twelve" }

/-- A sub-agent run that executes two statements and answers normally. -/
def envAgent : SqlEnv :=
  { dbRunResult := fun _ => Except.ok ""
    agentQueries := fun _ =>
      ["SELECT name FROM patients", "SELECT COUNT(*) FROM visits"]
    agentResult := fun _ => Except.ok "There are 42 visits." }

/-- A sub-agent run that completes without executing any SQL statement. -/
def envAgentNoSql : SqlEnv :=
  { dbRunResult := fun _ => Except.ok ""
    agentQueries := fun _ => []
    agentResult := fun _ => Except.ok "I cannot determine that." }

/-- A store and sub-agent that both raise. -/
def envError : SqlEnv :=
  { dbRunResult := fun _ => Except.error "no such table: foo"
    agentQueries := fun _ => ["SELECT * FROM foo"]
    agentResult := fun _ => Except.error "OperationalError" }

/-- A router agent whose invocation raises. -/
def dummyAgent : AgentFn := fun _ => Except.error "unavailable"

/-! ## Claim theorems -/

/-- C1: a question whose stripped text starts (case-insensitively) with one
of the recognized SQL keywords is executed verbatim through `db.run` — the
only external invocation is the direct `db.run` on the stripped text, which
is also what gets appended to the capture list — and the sub-agent is never
invoked; on success the returned string embeds the executed text after
`SQL:` and the raw rows after `Answer:`. -/
theorem sql_keyword_runs_verbatim (env : SqlEnv) (qs : List String)
    (question : String) (hsql : looksLikeSql (pyStrip question) = true) :
    (run_sql_tool env qs question).events =
      [SqlEvent.dbRunDirect (pyStrip question)] ∧
    (run_sql_tool env qs question).queries = qs ++ [pyStrip question] ∧
    ∀ rows, env.dbRunResult (pyStrip question) = Except.ok rows →
      (run_sql_tool env qs question).output =
        "Source: Database (SQLite: healthcare.db)\nTool Used: SQL_Agent (direct SQL execution)\nSQL: " ++
          pyStrip question ++ "\nAnswer: " ++ rows := by
  cases hr : env.dbRunResult (pyStrip question) with
  | ok rows =>
      refine ⟨?_, ?_, ?_⟩
      · simp [run_sql_tool, hsql, hr]
      · simp [run_sql_tool, hsql, hr]
      · intro r hr2
        cases hr2
        simp [run_sql_tool, hsql, hr]
  | error e =>
      refine ⟨?_, ?_, ?_⟩
      · simp [run_sql_tool, hsql, hr]
      · simp [run_sql_tool, hsql, hr]
      · intro r hr2
        simp at hr2

/-- C1 witness: the direct path at a concrete SELECT question. -/
theorem sql_keyword_runs_verbatim_witness :
    (run_sql_tool envDirect [] " SELECT COUNT(*) FROM patients ").events =
      [SqlEvent.dbRunDirect (pyStrip " SELECT COUNT(*) FROM patients ")] ∧
    (run_sql_tool envDirect [] " SELECT COUNT(*) FROM patients ").queries =
      [] ++ [pyStrip " SELECT COUNT(*) FROM patients "] ∧
    (run_sql_tool envDirect [] " SELECT COUNT(*) FROM patients ").output =
      "Source: Database (SQLite: healthcare.db)\nTool Used: SQL_Agent (direct SQL execution)\nSQL: " ++
        pyStrip " SELECT COUNT(*) FROM patients " ++ "\nAnswer: " ++ "[(12,)]" := by
  have h := sql_keyword_runs_verbatim envDirect []
    " SELECT COUNT(*) FROM patients " (by decide)
  exact ⟨h.1, h.2.1, h.2.2 "[(12,)]" rfl⟩

/-- C2: for a non-SQL-prefixed question whose sub-agent run succeeds after
executing at least one statement, the final contents of the capture list
are exactly the statements executed during this request (the prior contents
were cleared), and the string after `SQL:` in the returned text is the last
of those statements. -/
theorem nl_question_reports_last_executed_sql (env : SqlEnv)
    (qs : List String) (question answer : String)
    (hns : looksLikeSql (pyStrip question) = false)
    (hne : env.agentQueries (sqlAgentInput question) ≠ [])
    (hok : env.agentResult (sqlAgentInput question) = Except.ok answer) :
    (run_sql_tool env qs question).queries =
      env.agentQueries (sqlAgentInput question) ∧
    (run_sql_tool env qs question).output =
      "Source: Database (SQLite: healthcare.db)\nTool Used: SQL_Agent\nSQL: " ++
        (env.agentQueries (sqlAgentInput question)).getLast hne ++
        "\nAnswer: " ++ answer := by
  constructor
  · simp [run_sql_tool, hns, hok]
  · simp [run_sql_tool, hns, hok, List.getLastD_eq_getLast?,
      List.getLast?_eq_getLast _ hne]

/-- C2 witness: a concrete sub-agent run executing two statements. -/
theorem nl_question_reports_last_executed_sql_witness :
    (run_sql_tool envAgent ["stale query"] "How many visits are there?").queries =
      ["SELECT name FROM patients", "SELECT COUNT(*) FROM visits"] ∧
    (run_sql_tool envAgent ["stale query"] "How many visits are there?").output =
      "Source: Database (SQLite: healthcare.db)\nTool Used: SQL_Agent\nSQL: " ++
        "SELECT COUNT(*) FROM visits" ++ "\nAnswer: " ++ "There are 42 visits." := by
  have h := nl_question_reports_last_executed_sql envAgent ["stale query"]
    "How many visits are there?" "There are 42 visits." (by decide) (by decide) rfl
  exact ⟨h.1, h.2⟩

/-- C10: a non-SQL-prefixed question whose sub-agent run succeeds without
executing any SQL statement still yields the normally formatted reply, its
`SQL:` field holding the literal placeholder `N/A`. -/
theorem nl_question_empty_capture_is_na (env : SqlEnv) (qs : List String)
    (question answer : String)
    (hns : looksLikeSql (pyStrip question) = false)
    (hempty : env.agentQueries (sqlAgentInput question) = [])
    (hok : env.agentResult (sqlAgentInput question) = Except.ok answer) :
    (run_sql_tool env qs question).output =
      "Source: Database (SQLite: healthcare.db)\nTool Used: SQL_Agent\nSQL: " ++
        "N/A" ++ "\nAnswer: " ++ answer := by
  simp [run_sql_tool, hns, hok, hempty]

/-- C10 witness: a concrete sub-agent run that executes nothing. -/
theorem nl_question_empty_capture_is_na_witness :
    (run_sql_tool envAgentNoSql [] "What color is the sky?").output =
      "Source: Database (SQLite: healthcare.db)\nTool Used: SQL_Agent\nSQL: " ++
        "N/A" ++ "\nAnswer: " ++ "I cannot determine that." :=
  nl_question_empty_capture_is_na envAgentNoSql [] "What color is the sky?"
    "I cannot determine that." (by decide) rfl rfl

/-- C7: whichever path `run_sql_tool` takes, an exception from the SQL
execution or from the sub-agent run is caught, and the returned string's
`Answer:` field holds a descriptive message ending in the exception text;
the embedding's return type (`SqlToolRun`, not `Except`) records that no
exception propagates to the caller. -/
theorem sql_tool_catches_exceptions (env : SqlEnv) (qs : List String)
    (question e : String) :
    (looksLikeSql (pyStrip question) = true →
      env.dbRunResult (pyStrip question) = Except.error e →
      (run_sql_tool env qs question).output =
        "Source: Database (SQLite: healthcare.db)\nTool Used: SQL_Agent\nAnswer: Error while querying database: " ++ e) ∧
    (looksLikeSql (pyStrip question) = false →
      env.agentResult (sqlAgentInput question) = Except.error e →
      (run_sql_tool env qs question).output =
        "Source: Database (SQLite: healthcare.db)\nTool Used: SQL_Agent\nAnswer: Error while querying database: " ++ e) := by
  constructor
  · intro h1 h2
    simp [run_sql_tool, h1, h2]
  · intro h1 h2
    simp [run_sql_tool, h1, h2]

/-- C7 witness: both error paths at concrete failing inputs. -/
theorem sql_tool_catches_exceptions_witness :
    (run_sql_tool envError [] "SELECT * FROM foo").output =
      "Source: Database (SQLite: healthcare.db)\nTool Used: SQL_Agent\nAnswer: Error while querying database: " ++
        "no such table: foo" ∧
    (run_sql_tool envError [] "list the foo records").output =
      "Source: Database (SQLite: healthcare.db)\nTool Used: SQL_Agent\nAnswer: Error while querying database: " ++
        "OperationalError" := by
  refine ⟨?_, ?_⟩
  · exact (sql_tool_catches_exceptions envError [] "SELECT * FROM foo"
      "no such table: foo").1 (by decide) rfl
  · exact (sql_tool_catches_exceptions envError [] "list the foo records"
      "OperationalError").2 (by decide) rfl

/-- C4 counterexample: handling a single database question mutates the
process-wide capture list `sql_queries` — its contents after the request
differ from its contents before — so not all shared state is read-only
after startup. -/
theorem shared_capture_list_is_mutated :
    (run_sql_tool envAgent ["SELECT 1"] "How many patients have hypertension?").queries ≠
      ["SELECT 1"] := by decide

/-- C4 amended: every shared resource except the capture list `sql_queries`
is read-only after startup, and `run_sql_tool` mutates exactly that list on
every database question: an SQL-prefixed question appends the executed
statement to it, and any other question clears it and leaves it holding
precisely the statements the sub-agent executed during that request. -/
theorem capture_list_is_only_mutable_state (env : SqlEnv) (qs : List String)
    (question : String) :
    (looksLikeSql (pyStrip question) = true →
      (run_sql_tool env qs question).queries = qs ++ [pyStrip question]) ∧
    (looksLikeSql (pyStrip question) = false →
      (run_sql_tool env qs question).queries =
        env.agentQueries (sqlAgentInput question)) := by
  constructor
  · intro h
    cases hr : env.dbRunResult (pyStrip question) <;> simp [run_sql_tool, h, hr]
  · intro h
    cases hr : env.agentResult (sqlAgentInput question) <;>
      simp [run_sql_tool, h, hr]

/-- C4 amended witness: both mutation shapes at concrete inputs. -/
theorem capture_list_is_only_mutable_state_witness :
    (run_sql_tool envDirect ["old"] "SELECT 1").queries =
      ["old"] ++ [pyStrip "SELECT 1"] ∧
    (run_sql_tool envAgent ["old"] "How many visits?").queries =
      envAgent.agentQueries (sqlAgentInput "How many visits?") := by
  refine ⟨?_, ?_⟩
  · exact (capture_list_is_only_mutable_state envDirect ["old"] "SELECT 1").1
      (by decide)
  · exact (capture_list_is_only_mutable_state envAgent ["old"] "How many visits?").2
      (by decide)

/-- C3: for every list of retrieved source documents, the citation list the
document tool joins into its `Files:` line has no duplicate entries (each
entry being the rendering of one (file, page) pair, so equal pairs render
equally and would be duplicates) and has at most five entries; whenever any
document was retrieved, the tool's output embeds exactly that list. -/
theorem pdf_citations_nodup_and_bounded (docs : List DocMeta)
    (result : String) :
    (citationList docs).Nodup ∧ (citationList docs).length ≤ 5 ∧
    (docs ≠ [] → run_pdf_tool docs result =
      "Source: PDF • Files: " ++ String.intercalate ", " (citationList docs) ++
        "\nTool Used: PDF_RetrievalQA\nAnswer: " ++ result) := by
  refine ⟨?_, ?_, ?_⟩
  · exact (dedupSrcs_nodup docs).sublist (List.take_sublist 5 (dedupSrcs docs))
  · rw [citationList, List.length_take]
    exact min_le_left _ _
  · intro h
    simp [run_pdf_tool, h]

/-- C3 witness: two duplicate citations and a metadata-free document. -/
theorem pdf_citations_nodup_and_bounded_witness :
    (citationList [⟨some "privacy.pdf", some "3"⟩,
        ⟨some "privacy.pdf", some "3"⟩, ⟨none, none⟩]).Nodup ∧
    (citationList [⟨some "privacy.pdf", some "3"⟩,
        ⟨some "privacy.pdf", some "3"⟩, ⟨none, none⟩]).length ≤ 5 ∧
    run_pdf_tool [⟨some "privacy.pdf", some "3"⟩,
        ⟨some "privacy.pdf", some "3"⟩, ⟨none, none⟩] "Data is encrypted." =
      "Source: PDF • Files: " ++
        String.intercalate ", " (citationList [⟨some "privacy.pdf", some "3"⟩,
          ⟨some "privacy.pdf", some "3"⟩, ⟨none, none⟩]) ++
        "\nTool Used: PDF_RetrievalQA\nAnswer: " ++ "Data is encrypted." := by
  have h := pdf_citations_nodup_and_bounded
    [⟨some "privacy.pdf", some "3"⟩, ⟨some "privacy.pdf", some "3"⟩,
      ⟨none, none⟩] "Data is encrypted."
  exact ⟨h.1, h.2.1, h.2.2 (by decide)⟩

/-- C5: the `/health` endpoint reports status `degraded` exactly when the
global agent is unset; in every other case the status is `healthy`, and the
`agent_ready` field equals whether the agent is set. -/
theorem health_degraded_iff_agent_unset (agent : Option AgentFn) :
    ((health agent).status = "degraded" ↔ agent = none) ∧
    (agent ≠ none → (health agent).status = "healthy") ∧
    (health agent).agent_ready = agent.isSome := by
  cases agent with
  | none =>
      refine ⟨by simp [health], by simp, by simp [health]⟩
  | some f =>
      refine ⟨?_, fun _ => by simp [health], by simp [health]⟩
      constructor
      · intro h
        exact absurd h (by simp [health])
      · intro h
        exact absurd h (by simp)

/-- C5 witness: both sides of the equivalence at concrete agent states. -/
theorem health_degraded_iff_agent_unset_witness :
    (health none).status = "degraded" ∧
    (health (some dummyAgent)).status = "healthy" ∧
    (health none).agent_ready = false ∧
    (health (some dummyAgent)).agent_ready = true := by
  refine ⟨?_, ?_, ?_, ?_⟩
  · exact (health_degraded_iff_agent_unset none).1.mpr rfl
  · exact (health_degraded_iff_agent_unset (some dummyAgent)).2.1 (by simp)
  · exact (health_degraded_iff_agent_unset none).2.2
  · exact (health_degraded_iff_agent_unset (some dummyAgent)).2.2

/-- C6: while the global agent is unset, every `/chat` request immediately
yields the 503 service-unavailable error; in the embedding no agent or tool
call even exists on this path (the result is a constant, independent of the
query), so the endpoint cannot hang on a null agent. -/
theorem chat_503_when_agent_unset (query : String) :
    chat none query = ChatResult.httpError 503 "Agent not ready yet." := rfl

/-- C8: with the agent set, an exception raised inside the
invocation-and-parsing path of `/chat` is caught and surfaced as a 500
error whose detail is the exception's text. -/
theorem chat_500_on_exception (invoke : AgentFn) (query e : String)
    (h : invoke query = Except.error e) :
    chat (some invoke) query = ChatResult.httpError 500 e := by
  simp [chat, h]

/-- C8 witness: a concrete raising invocation. -/
theorem chat_500_on_exception_witness :
    chat (some dummyAgent) "Hello" = ChatResult.httpError 500 "unavailable" :=
  chat_500_on_exception dummyAgent "Hello" "unavailable" rfl

/-! ## Occurrence predicates for the marker-extraction claim

The spec describes the endpoint's parsing in terms of the FIRST occurrence
of `SQL:` / `Files:` / `Tool Used:` and the text after the LAST occurrence
of `Answer:`.  These predicates state those notions independently of the
code's `find`/`split` implementation. -/

/-- `sub` occurs in `s` starting at index `i` (the equality forces
`i + sub.length ≤ s.length`). -/
def OccursAt (sub s : List Char) (i : Nat) : Prop :=
  (s.drop i).take sub.length = sub

/-- `i` is the index of the first occurrence of `sub` in `s`. -/
def FirstOccAt (sub s : List Char) (i : Nat) : Prop :=
  OccursAt sub s i ∧ ∀ j, j < i → ¬ OccursAt sub s j

/-- `u` is the text after the last occurrence of `sep` in `s`, that
occurrence starting at index `i`: the tail of `s` from `i` is `sep`
followed by `u`, and no occurrence of `sep` starts after `i`. -/
def LastOccTail (sep s : List Char) (i : Nat) (u : List Char) : Prop :=
  s.drop i = sep ++ u ∧ ∀ j, j < s.length → i < j → ¬ OccursAt sep s j

/-- `sep` has no nonempty proper border: no proper prefix of `sep` is also
a suffix, so two occurrences of `sep` can never overlap.  The fixed
markers used by the endpoint (such as `Answer:`) satisfy this. -/
def NoBorder (sep : List Char) : Prop :=
  ∀ d, d < sep.length → 0 < d → sep.take (sep.length - d) ≠ sep.drop d

instance (sub s : List Char) (i : Nat) : Decidable (OccursAt sub s i) := by
  unfold OccursAt
  infer_instance

instance (sub s : List Char) (i : Nat) : Decidable (FirstOccAt sub s i) := by
  unfold FirstOccAt
  infer_instance

instance (sep s u : List Char) (i : Nat) :
    Decidable (LastOccTail sep s i u) := by
  unfold LastOccTail
  infer_instance

instance (sep : List Char) : Decidable (NoBorder sep) := by
  unfold NoBorder
  infer_instance

theorem noBorder_answer_marker : NoBorder ("Answer:".data) := by decide

theorem occursAt_zero {sub l : List Char} :
    OccursAt sub l 0 ↔ l.take sub.length = sub := by
  rw [OccursAt, List.drop_zero]

theorem occursAt_succ_cons {sub rest : List Char} {c : Char} {j : Nat} :
    OccursAt sub (c :: rest) (j + 1) ↔ OccursAt sub rest j := by
  rw [OccursAt, OccursAt, List.drop_succ_cons]

/-! ## Facts about `findSub` (Python `find` / `in`) -/

theorem occursAt_of_drop_eq {sep s u : List Char} {i : Nat}
    (h : s.drop i = sep ++ u) : OccursAt sep s i := by
  rw [OccursAt, h]
  exact List.take_left sep u

theorem occursAt_decomp {sub s : List Char} {i : Nat}
    (h : OccursAt sub s i) :
    s = s.take i ++ sub ++ s.drop (i + sub.length) := by
  have h1 : (s.drop i).take sub.length ++ (s.drop i).drop sub.length =
      s.drop i := List.take_append_drop _ _
  rw [h, List.drop_drop] at h1
  calc s = s.take i ++ s.drop i := (List.take_append_drop i s).symm
    _ = s.take i ++ (sub ++ s.drop (i + sub.length)) := by rw [h1]
    _ = s.take i ++ sub ++ s.drop (i + sub.length) := by
        rw [List.append_assoc]

theorem findSub_eq_some_first (sub : List Char) :
    ∀ (l : List Char) (i : Nat), findSub sub l = some i →
      FirstOccAt sub l i := by
  intro l
  induction l with
  | nil =>
      intro i h
      rw [findSub] at h
      by_cases hc : ([] : List Char).take sub.length = sub
      · rw [if_pos hc, Option.some.injEq] at h
        subst h
        exact ⟨occursAt_zero.mpr hc, fun j hj => absurd hj (Nat.not_lt_zero j)⟩
      · rw [if_neg hc] at h
        exact Option.noConfusion h
  | cons c rest ih =>
      intro i h
      rw [findSub] at h
      by_cases hc : (c :: rest).take sub.length = sub
      · rw [if_pos hc, Option.some.injEq] at h
        subst h
        exact ⟨occursAt_zero.mpr hc, fun j hj => absurd hj (Nat.not_lt_zero j)⟩
      · rw [if_neg hc] at h
        match hfr : findSub sub rest with
        | none => rw [hfr] at h; exact Option.noConfusion h
        | some i' =>
            rw [hfr] at h
            simp only [Option.map_some', Option.some.injEq] at h
            subst h
            obtain ⟨hocc, hmin⟩ := ih i' hfr
            refine ⟨occursAt_succ_cons.mpr hocc, ?_⟩
            intro j hj
            cases j with
            | zero => exact fun hz => hc (occursAt_zero.mp hz)
            | succ j' =>
                have hj' : j' < i' := by omega
                exact fun hz => hmin j' hj' (occursAt_succ_cons.mp hz)

theorem findSub_isSome_of_occursAt (sub : List Char) :
    ∀ (l : List Char) (i : Nat), OccursAt sub l i →
      (findSub sub l).isSome = true := by
  intro l
  induction l with
  | nil =>
      intro i h
      have h0 : ([] : List Char).take sub.length = sub := by
        rw [OccursAt] at h
        cases i <;> simpa using h
      rw [findSub, if_pos h0]
      rfl
  | cons c rest ih =>
      intro i h
      by_cases hc : (c :: rest).take sub.length = sub
      · rw [findSub, if_pos hc]
        rfl
      · cases i with
        | zero => exact absurd (occursAt_zero.mp h) hc
        | succ i' =>
            have h' : OccursAt sub rest i' := occursAt_succ_cons.mp h
            have hrec := ih i' h'
            rw [findSub, if_neg hc]
            match hfr : findSub sub rest with
            | none => rw [hfr] at hrec; exact Bool.noConfusion hrec
            | some k => rfl

theorem firstOccAt_unique {sub s : List Char} {i i' : Nat}
    (h : FirstOccAt sub s i) (h' : FirstOccAt sub s i') : i = i' := by
  rcases Nat.lt_trichotomy i i' with hlt | heq | hgt
  · exact absurd h.1 (h'.2 i hlt)
  · exact heq
  · exact absurd h'.1 (h.2 i' hgt)

theorem pyFindD_of_firstOccAt {s sub : String} {i : Nat}
    (h : FirstOccAt sub.data s.data i) :
    pyFindD s sub = i ∧ containsSub s sub = true := by
  have hsome := findSub_isSome_of_occursAt sub.data s.data i h.1
  match hf : findSub sub.data s.data with
  | none => rw [hf] at hsome; simp at hsome
  | some i' =>
      have : i' = i :=
        firstOccAt_unique (findSub_eq_some_first sub.data s.data i' hf) h
      subst this
      exact ⟨by simp [pyFindD, hf], by simp [containsSub, hf]⟩

/-! ## Characterizing the final piece of the split -/

theorem splitOnAux_ne_nil (sep : List Char) (hsep : sep ≠ []) :
    ∀ (n : Nat) (l acc : List Char), l.length ≤ n →
      splitOnAux sep hsep l acc ≠ [] := by
  intro n
  induction n with
  | zero =>
      intro l acc hl
      have hn : l = [] := List.length_eq_zero.mp (Nat.le_zero.mp hl)
      subst hn
      rw [splitOnAux]
      exact List.cons_ne_nil _ _
  | succ n ih =>
      intro l acc hl
      cases l with
      | nil =>
          rw [splitOnAux]
          exact List.cons_ne_nil _ _
      | cons c rest =>
          by_cases hc : (c :: rest).take sep.length = sep
          · rw [splitOnAux, if_pos hc]
            exact List.cons_ne_nil _ _
          · rw [splitOnAux, if_neg hc]
            apply ih
            rw [List.length_cons] at hl
            omega

theorem getLastD_indep {l : List (List Char)} (h : l ≠ [])
    (x y : List Char) : l.getLastD x = l.getLastD y := by
  cases l with
  | nil => exact absurd rfl h
  | cons a as => rw [List.getLastD_cons, List.getLastD_cons]

/-- The final piece of `splitOnAux sep _ l acc`: when `sep` does not occur
in `l` it is `acc.reverse ++ l`; when `sep` does occur, it is preceded in
`l` by an occurrence of `sep` and itself contains no occurrence (the worker
scans every position of the final segment). -/
theorem splitOnAux_getLastD_spec (sep : List Char) (hsep : sep ≠ []) :
    ∀ (n : Nat) (l acc : List Char), l.length ≤ n →
      ((∀ i, ¬ OccursAt sep l i) →
        (splitOnAux sep hsep l acc).getLastD [] = acc.reverse ++ l) ∧
      ((∃ i, OccursAt sep l i) →
        (∃ p, l = p ++ sep ++ (splitOnAux sep hsep l acc).getLastD []) ∧
        (∀ j, ¬ OccursAt sep ((splitOnAux sep hsep l acc).getLastD []) j)) := by
  intro n
  induction n with
  | zero =>
      intro l acc hl
      have hn : l = [] := List.length_eq_zero.mp (Nat.le_zero.mp hl)
      subst hn
      constructor
      · intro _
        rw [splitOnAux, List.getLastD_cons]
        simp
      · rintro ⟨i, hi⟩
        rw [OccursAt, List.drop_nil] at hi
        exact absurd hi.symm (by simpa using hsep)
  | succ n ih =>
      intro l acc hl
      cases l with
      | nil =>
          constructor
          · intro _
            rw [splitOnAux, List.getLastD_cons]
            simp
          · rintro ⟨i, hi⟩
            rw [OccursAt, List.drop_nil] at hi
            exact absurd hi.symm (by simpa using hsep)
      | cons c rest =>
          have hk : 0 < sep.length := List.length_pos.mpr hsep
          by_cases hc : (c :: rest).take sep.length = sep
          · -- a match at position 0: emit the piece, continue past it
            have hlen' : ((c :: rest).drop sep.length).length ≤ n := by
              rw [List.length_drop, List.length_cons]
              rw [List.length_cons] at hl
              omega
            have hS := splitOnAux_ne_nil sep hsep n
              ((c :: rest).drop sep.length) [] hlen'
            have hrw : (splitOnAux sep hsep (c :: rest) acc).getLastD [] =
                (splitOnAux sep hsep ((c :: rest).drop sep.length) []).getLastD [] := by
              rw [splitOnAux, if_pos hc, List.getLastD_cons]
              exact getLastD_indep hS acc.reverse []
            have hdecomp : c :: rest = sep ++ (c :: rest).drop sep.length := by
              conv_lhs => rw [← List.take_append_drop sep.length (c :: rest)]
              rw [hc]
            constructor
            · intro hno
              exact absurd (occursAt_zero.mpr hc) (hno 0)
            · intro _
              by_cases hocc' : ∃ i, OccursAt sep ((c :: rest).drop sep.length) i
              · obtain ⟨⟨p', hp'⟩, hno⟩ :=
                  (ih ((c :: rest).drop sep.length) [] hlen').2 hocc'
                rw [hrw]
                set r := (splitOnAux sep hsep
                  ((c :: rest).drop sep.length) []).getLastD [] with hrdef
                refine ⟨⟨sep ++ p', ?_⟩, hno⟩
                rw [hdecomp, hp']
                simp [List.append_assoc]
              · have h1 := (ih ((c :: rest).drop sep.length) [] hlen').1
                  (fun i hi => hocc' ⟨i, hi⟩)
                rw [hrw, h1, List.reverse_nil, List.nil_append]
                refine ⟨⟨[], by rw [List.nil_append]; exact hdecomp⟩, ?_⟩
                intro j hj
                exact hocc' ⟨j, hj⟩
          · -- no match at position 0: shift one character into the piece
            have hlen' : rest.length ≤ n := by
              rw [List.length_cons] at hl
              omega
            have hrw : splitOnAux sep hsep (c :: rest) acc =
                splitOnAux sep hsep rest (c :: acc) := by
              rw [splitOnAux, if_neg hc]
            constructor
            · intro hno
              have hnoRest : ∀ i, ¬ OccursAt sep rest i :=
                fun i hi => hno (i + 1) (occursAt_succ_cons.mpr hi)
              rw [hrw, (ih rest (c :: acc) hlen').1 hnoRest,
                List.reverse_cons, List.append_assoc, List.singleton_append]
            · rintro ⟨i, hi⟩
              cases i with
              | zero => exact absurd (occursAt_zero.mp hi) hc
              | succ i' =>
                  have hi' : OccursAt sep rest i' := occursAt_succ_cons.mp hi
                  obtain ⟨⟨p', hp'⟩, hno⟩ :=
                    (ih rest (c :: acc) hlen').2 ⟨i', hi'⟩
                  rw [hrw]
                  refine ⟨⟨c :: p', ?_⟩, hno⟩
                  rw [List.cons_append, List.cons_append]
                  exact congrArg (List.cons c) hp'

/-- For a border-free separator, the final piece of the split is exactly
the text after the last occurrence of the separator. -/
theorem splitOnAux_getLastD_of_lastOccTail (sep : List Char) (hsep : sep ≠ [])
    (hnb : NoBorder sep) (s u : List Char) (i : Nat)
    (h1 : s.drop i = sep ++ u)
    (h2 : ∀ j, j < s.length → i < j → ¬ OccursAt sep s j) :
    (splitOnAux sep hsep s []).getLastD [] = u := by
  have hk : 0 < sep.length := List.length_pos.mpr hsep
  obtain ⟨⟨p, hp⟩, hno⟩ :=
    (splitOnAux_getLastD_spec sep hsep s.length s [] le_rfl).2
      ⟨i, occursAt_of_drop_eq h1⟩
  set r := (splitOnAux sep hsep s []).getLastD [] with hrdef
  have hdropP : s.drop p.length = sep ++ r := by
    rw [hp, List.append_assoc]
    exact List.drop_left _ _
  have hslen : s.length = p.length + sep.length + r.length := by
    rw [hp, List.length_append, List.length_append]
  rcases Nat.lt_trichotomy i p.length with hlt | heq | hgt
  · have hpl : p.length < s.length := by omega
    exact absurd (occursAt_of_drop_eq hdropP) (h2 p.length hpl hlt)
  · rw [heq] at h1
    exact (List.append_cancel_left (h1.symm.trans hdropP)).symm
  · have hdd := List.drop_drop (i - p.length) p.length s
    rw [hdropP] at hdd
    have hpi : p.length + (i - p.length) = i := by omega
    rw [hpi] at hdd
    have heq2 := hdd.trans h1
    rw [List.drop_append_eq_append_drop] at heq2
    by_cases hdk : i - p.length < sep.length
    · have e0 : i - p.length - sep.length = 0 := by omega
      rw [e0, List.drop_zero] at heq2
      have htake := congrArg (List.take (sep.length - (i - p.length))) heq2
      rw [List.take_append_eq_append_take, List.take_append_eq_append_take]
        at htake
      have e1 : sep.length - (i - p.length) - sep.length = 0 := by omega
      have e2 : sep.length - (i - p.length) -
          (sep.drop (i - p.length)).length = 0 := by
        rw [List.length_drop]
        omega
      rw [e1, e2, List.take_zero, List.take_zero, List.append_nil,
        List.append_nil] at htake
      have e3 : (sep.drop (i - p.length)).take
          (sep.length - (i - p.length)) = sep.drop (i - p.length) := by
        have e4 : sep.length - (i - p.length) =
            (sep.drop (i - p.length)).length := by
          rw [List.length_drop]
        rw [e4, List.take_length]
      rw [e3] at htake
      exact absurd htake.symm (hnb (i - p.length) hdk (by omega))
    · have e5 : sep.drop (i - p.length) = [] :=
        List.drop_eq_nil_of_le (by omega)
      rw [e5, List.nil_append] at heq2
      exact absurd (occursAt_of_drop_eq heq2) (hno (i - p.length - sep.length))

/-- C9: when the last tool invocation recorded by the router agent is
`SQL_Agent` and the observation contains the `SQL:` and `Answer:` markers
(their first occurrences at `i` and `j`), the response's `tool_details` is
the trimmed substring between the first `SQL:` (skipping its 4 characters)
and the first `Answer:`; when the last tool is `PDF_RetrievalQA` with
`Files:` and `Tool Used:` present (first occurrences at `i` and `j`),
`tool_details` is the trimmed substring between them (skipping the 6
characters of `Files:`); in both cases `clean_answer` is the trimmed text
after the last occurrence of `Answer:`. -/
theorem chat_marker_extraction (invoke : AgentFn) (query : String)
    (res : AgentOutput) (obs : String) (i j iu : Nat) (u : List Char)
    (hinv : invoke query = Except.ok res) :
    (res.intermediate_steps.getLast? = some (⟨"SQL_Agent"⟩, obs) →
      FirstOccAt "SQL:".data obs.data i →
      FirstOccAt "Answer:".data obs.data j →
      LastOccTail "Answer:".data obs.data iu u →
      chat (some invoke) query = ChatResult.response
        { clean_answer := pyStrip (String.mk u)
          tool := "SQL_Agent"
          tool_details := pyStrip (pySlice obs (i + 4) j)
          raw_output := res.output.getD "" }) ∧
    (res.intermediate_steps.getLast? = some (⟨"PDF_RetrievalQA"⟩, obs) →
      FirstOccAt "Files:".data obs.data i →
      FirstOccAt "Tool Used:".data obs.data j →
      LastOccTail "Answer:".data obs.data iu u →
      chat (some invoke) query = ChatResult.response
        { clean_answer := pyStrip (String.mk u)
          tool := "PDF_RetrievalQA"
          tool_details := pyStrip (pySlice obs (i + 6) j)
          raw_output := res.output.getD "" }) := by
  constructor
  · intro hstep hfi hfj hlast
    obtain ⟨hfindS, hcontS⟩ := pyFindD_of_firstOccAt hfi
    obtain ⟨hfindA, hcontA⟩ := pyFindD_of_firstOccAt hfj
    have hcleanEq : (splitOnAux "Answer:".data (by decide)
        obs.data []).getLastD [] = u :=
      splitOnAux_getLastD_of_lastOccTail "Answer:".data (by decide)
        noBorder_answer_marker obs.data u iu hlast.1 hlast.2
    have hparse : parseObservation "SQL_Agent" obs =
        (pyStrip (String.mk u), pyStrip (pySlice obs (i + 4) j)) := by
      simp only [parseObservation, if_true, hcontS, hcontA, Bool.and_self,
        hfindS, hfindA, pySplitLastPiece, hcleanEq, ite_true,
        reduceIte]
    simp only [chat, hinv, hstep, hparse]
  · intro hstep hfi hfj hlast
    obtain ⟨hfindF, hcontF⟩ := pyFindD_of_firstOccAt hfi
    obtain ⟨hfindT, hcontT⟩ := pyFindD_of_firstOccAt hfj
    have hcleanEq : (splitOnAux "Answer:".data (by decide)
        obs.data []).getLastD [] = u :=
      splitOnAux_getLastD_of_lastOccTail "Answer:".data (by decide)
        noBorder_answer_marker obs.data u iu hlast.1 hlast.2
    have hcontA : containsSub obs "Answer:" = true := by
      rw [containsSub]
      exact findSub_isSome_of_occursAt "Answer:".data obs.data iu
        (occursAt_of_drop_eq hlast.1)
    have hne : "PDF_RetrievalQA" ≠ "SQL_Agent" := by decide
    have hclean2 : (if containsSub obs "Answer:" = true
        then pyStrip (pySplitLastPiece obs "Answer:" (by decide)) else obs) =
        pyStrip (String.mk u) := by
      rw [hcontA, if_pos rfl, pySplitLastPiece, hcleanEq]
    have hdetails : (if (containsSub obs "Files:" &&
          containsSub obs "Tool Used:") = true
        then pyStrip (pySlice obs (pyFindD obs "Files:" + 6)
          (pyFindD obs "Tool Used:"))
        else if containsSub obs "Files:" = true
        then pyStrip (pySliceFrom obs (pyFindD obs "Files:" + 6)) else "") =
        pyStrip (pySlice obs (i + 6) j) := by
      rw [hcontF, hcontT, if_pos rfl, hfindF, hfindT]
      exact if_pos rfl
    have hparse : parseObservation "PDF_RetrievalQA" obs =
        (pyStrip (String.mk u), pyStrip (pySlice obs (i + 6) j)) := by
      rw [parseObservation, if_neg hne, if_pos rfl]
      rw [Prod.mk.injEq]
      exact ⟨hclean2, hdetails⟩
    simp only [chat, hinv, hstep, hparse]

/-- Concrete SQL-tool observation used by the marker-extraction witness. -/
def wObsSql : String := "SQL: SELECT 1\nAnswer: 1"

/-- Router-agent output whose last step is the SQL tool. -/
def wResSql : AgentOutput :=
  { intermediate_steps := [(⟨"SQL_Agent"⟩, wObsSql)], output := some "1" }

/-- Router agent producing `wResSql`. -/
def wInvokeSql : AgentFn := fun _ => Except.ok wResSql

/-- Concrete PDF-tool observation used by the marker-extraction witness. -/
def wObsPdf : String :=
  "Files: a.pdf (p.1)\nTool Used: PDF_RetrievalQA\nAnswer: Yes"

/-- Router-agent output whose last step is the PDF tool. -/
def wResPdf : AgentOutput :=
  { intermediate_steps := [(⟨"PDF_RetrievalQA"⟩, wObsPdf)], output := some "Yes" }

/-- Router agent producing `wResPdf`. -/
def wInvokePdf : AgentFn := fun _ => Except.ok wResPdf

/-- C9 witness: both marker layouts at concrete observations. -/
theorem chat_marker_extraction_witness :
    chat (some wInvokeSql) "How many patients?" = ChatResult.response
      { clean_answer := pyStrip (String.mk (" 1".data))
        tool := "SQL_Agent"
        tool_details := pyStrip (pySlice wObsSql (0 + 4) 14)
        raw_output := wResSql.output.getD "" } ∧
    chat (some wInvokePdf) "Is my data protected?" = ChatResult.response
      { clean_answer := pyStrip (String.mk (" Yes".data))
        tool := "PDF_RetrievalQA"
        tool_details := pyStrip (pySlice wObsPdf (0 + 6) 19)
        raw_output := wResPdf.output.getD "" } := by
  constructor
  · exact (chat_marker_extraction wInvokeSql "How many patients?" wResSql
      wObsSql 0 14 14 (" 1".data) rfl).1 (by decide) (by decide) (by decide)
      (by decide)
  · exact (chat_marker_extraction wInvokePdf "Is my data protected?" wResPdf
      wObsPdf 0 19 46 (" Yes".data) rfl).2 (by decide) (by decide) (by decide)
      (by decide)
